import Mathlib

/-!
Shallow embedding of the `sot_autofish` repository (Python) for checking its
natural-language specification.

The central component is `GameInteraction` (spec name: Input Dispatcher) from
`src/sot_autofish/game_interaction.py`: a stateful wrapper around Windows
input-injection calls that tracks which keys are logically held.  We embed it
as explicit state passing: every operation takes the OS behaviour as an oracle
(`WinAPI`), the current dispatcher state, and returns an `Outcome` holding the
Python result (normal return or raised exception), the state of the object
after the call, and the trace of observable effects (SendInput calls and
sleeps) the call performed.

The RL environment `GameFishingEnv` from `src/sot_autofish/game_fishing_env.py`
is embedded at the end, with its external collaborators (mss screen capture,
cv2 colour conversion / resize) as oracle functions.
-/

namespace SotAutofish

/-! ## Input structures (game_interaction.py lines 60-90)

The ctypes structures `_KeyBdInput`, `_MouseInput`, `_InputI`, `_Input`.
The `dwExtraInfo` pointer field carries no observable information and is
omitted (it is always a fresh pointer to 0). -/

/-- Embedding of the ctypes structure `_KeyBdInput`. -/
structure KeyBdInput where
  wVk : Nat
  wScan : Nat
  dwFlags : Nat
  tm : Nat
deriving Repr, DecidableEq

/-- Embedding of the ctypes structure `_MouseInput`. -/
structure MouseInput where
  dx : Int
  dy : Int
  mouseData : Nat
  dwFlags : Nat
  tm : Nat
deriving Repr, DecidableEq

/-- Embedding of the ctypes union `_InputI`: a keyboard or a mouse payload. -/
inductive InputI where
  | ki : KeyBdInput → InputI
  | mi : MouseInput → InputI
deriving Repr, DecidableEq

/-- Embedding of the ctypes structure `_Input` (tag + payload). -/
structure Input where
  ty : Nat
  ii : InputI
deriving Repr, DecidableEq

/-! ## Python exceptions

`GameWindowError` (window lookup / foreground failures), `ValueError`
(raised by `_char_to_scancode`), `OSError` (raised by `_send_input`).
Each carries the message string built at the raise site. -/

/-- Embedding of the Python exceptions raised by `game_interaction.py`. -/
inductive PyError where
  | gameWindowError (msg : String)
  | valueError (msg : String)
  | osError (msg : String)
deriving Repr, DecidableEq

instance {ε α : Type} [DecidableEq ε] [DecidableEq α] : DecidableEq (Except ε α) := fun a b =>
  match a, b with
  | .ok x, .ok y => decidable_of_iff (x = y) (by simp)
  | .error x, .error y => decidable_of_iff (x = y) (by simp)
  | .ok _, .error _ => isFalse (by simp)
  | .error _, .ok _ => isFalse (by simp)

/-! ## Class-level constants (game_interaction.py lines 95-100) -/

def MOUSEEVENTF_LEFTDOWN : Nat := 0x0002
def MOUSEEVENTF_LEFTUP : Nat := 0x0004
def MOUSEEVENTF_RIGHTDOWN : Nat := 0x0008
def MOUSEEVENTF_RIGHTUP : Nat := 0x0010
def KEYEVENTF_SCANCODE : Nat := 0x0008
def KEYEVENTF_KEYUP : Nat := 0x0002

/-! ## Scancode table (game_interaction.py lines 23-35) -/

/-- Embedding of the module-level dict `US_QWERTY_SCANCODES`, in source order. -/
def US_QWERTY_SCANCODES : List (String × Nat) :=
  [("a", 0x1E), ("b", 0x30), ("c", 0x2E), ("d", 0x20), ("e", 0x12), ("f", 0x21),
   ("g", 0x22), ("h", 0x23), ("i", 0x17), ("j", 0x24), ("k", 0x25), ("l", 0x26),
   ("m", 0x32), ("n", 0x31), ("o", 0x18), ("p", 0x19), ("q", 0x10), ("r", 0x13),
   ("s", 0x1F), ("t", 0x14), ("u", 0x16), ("v", 0x2F), ("w", 0x11), ("x", 0x2D),
   ("y", 0x15), ("z", 0x2C),
   ("0", 0x0B), ("1", 0x02), ("2", 0x03), ("3", 0x04), ("4", 0x05), ("5", 0x06),
   ("6", 0x07), ("7", 0x08), ("8", 0x09), ("9", 0x0A),
   (" ", 0x39), ("\n", 0x1C), ("\x08", 0x0E), ("\t", 0x0F)]

/-! ## Error values

Helper constructors for the exact error values raised in the source; the spec
names them WindowNotFound, ForegroundActivationFailed, UnsupportedKey,
InputDispatchFailed. -/

/-- Error raised by `_set_to_foreground` when `FindWindowW` finds no window. -/
def window_not_found_error (game_title : String) : PyError :=
  .gameWindowError ("Game window with title '" ++ game_title ++ "' not found.")

/-- Error raised by `_set_to_foreground` when `SetForegroundWindow` fails. -/
def foreground_error : PyError :=
  .gameWindowError "Failed to bring the game window to the foreground."

/-- Error raised by `_char_to_scancode` for keys outside the table; the
message carries the (already lowercased) key. -/
def unsupported_key_error (key : String) : PyError :=
  .valueError ("Key '" ++ key ++ "' is not supported in the US-QWERTY scancode map.")

/-- Error raised by `_send_input` when `SendInput` reports failure. -/
def input_dispatch_error : PyError :=
  .osError "Failed to send input to the game window."

/-! ## OS oracle

The behaviour of the three user32 calls the dispatcher makes.  `FindWindowW`
returns a window handle, with 0 meaning "not found" (the Python code tests
`if not hwnd`); the other two return success booleans (the Python code tests
`if not result`). -/

/-- Oracle for the user32 calls used by `GameInteraction`. -/
structure WinAPI where
  findWindowW : String → Nat
  setForegroundWindow : Nat → Bool
  sendInput : Input → Bool

/-! ## Effect traces

Observable effects of a dispatcher call: each `SendInput` invocation (with a
ghost annotation `forKey` recording which key argument, if any, the enclosing
keyboard operation was invoked with, and the boolean the OS returned), and
each blocking random sleep (recorded by its millisecond bounds; the sampled
duration is not modelled). -/

/-- One observable effect of a dispatcher operation. -/
inductive Eff where
  | send (forKey : Option String) (input : Input) (ok : Bool)
  | sleep (min_ms max_ms : Nat)
deriving Repr, DecidableEq

/-- Dispatcher object state: the `_keys_down` set, modelled as the list of
keys in insertion order (the operations never insert a duplicate). -/
structure GameInteraction where
  keys_down : List String
deriving Repr, DecidableEq

/-- Result of one dispatcher method call: the Python outcome (normal return
or raised exception), the object state after the call, and the effect trace. -/
structure Outcome where
  result : Except PyError Unit
  state : GameInteraction
  trace : List Eff
deriving Repr, DecidableEq

/-! ## Static helpers (game_interaction.py lines 197-253) -/

/-- Embedding of `GameInteraction._create_keyboard_input`. -/
def create_keyboard_input (scancode flags : Nat) : Input :=
  { ty := 1, ii := .ki { wVk := 0, wScan := scancode, dwFlags := flags, tm := 0 } }

/-- Embedding of `GameInteraction._create_mouse_input`. -/
def create_mouse_input (flags : Nat) : Input :=
  { ty := 0, ii := .mi { dx := 0, dy := 0, mouseData := 0, dwFlags := flags, tm := 0 } }

/-- Lowercasing of one character as Python `str.lower` performs it, restricted
to the code points whose folded form can reach the scancode table: ASCII
uppercase letters fold to their lowercase forms (`Char.toLower`), and U+212A
KELVIN SIGN folds to `k`.  By the Unicode case mappings these are the only
code points whose Python lowercase form is a key of the table: no other code
point outside ASCII lowercases to an ASCII character, digits and control
characters have no case mappings, and Python's only multi-character special
casing (U+0130) produces a two-character string, never a table key. -/
def py_lower_char (c : Char) : Char :=
  if c = '\u212A' then 'k' else c.toLower

/-- Embedding of Python `str.lower` as a character-wise map of
`py_lower_char`.  Whether the folded key is a scancode-table key therefore
agrees with the source on every input.  Cased non-ASCII letters other than
U+212A (for example `É`, which Python folds to `é`) are left unchanged: the
lookup verdict still agrees with the source (both folded forms are outside
the table), but the folded key echoed in a failure message can then differ
from the source, so theorems that assert that exact payload restrict their
key to ASCII strings, on which this map agrees with Python exactly. -/
def py_lower (s : String) : String :=
  ⟨s.data.map py_lower_char⟩

/-- Embedding of `GameInteraction._char_to_scancode`: lowercase the key, then
look it up in the table; raise `ValueError` when absent. -/
def char_to_scancode (key : String) : Except PyError Nat :=
  let key := py_lower key
  match US_QWERTY_SCANCODES.lookup key with
  | some scancode => .ok scancode
  | none => .error (unsupported_key_error key)

/-- Embedding of `GameInteraction._random_sleep`: the only observable is that
a blocking sleep with these bounds happened. -/
def random_sleep (min_ms max_ms : Nat) : List Eff :=
  [.sleep min_ms max_ms]

/-- Embedding of `GameInteraction._random_sleep_after_key`; the source's
default arguments are 200 and 300 and callers are embedded with the values
they actually pass. -/
def random_sleep_after_key (min_ms max_ms : Nat) : List Eff :=
  random_sleep min_ms max_ms

/-- Embedding of `GameInteraction._send_input`: one `SendInput` call; raises
`OSError` when the OS reports failure.  The first argument is the ghost key
annotation recorded in the trace. -/
def send_input (api : WinAPI) (forKey : Option String) (i : Input) :
    Except PyError Unit × List Eff :=
  let ok := api.sendInput i
  (if ok then .ok () else .error input_dispatch_error, [.send forKey i ok])

/-! ## Dispatcher operations (game_interaction.py lines 102-195) -/

/-- Embedding of `GameInteraction._hold_key`. -/
def hold_key_impl (api : WinAPI) (g : GameInteraction) (key : String) : Outcome :=
  if key ∈ g.keys_down then
    ⟨.ok (), g, []⟩
  else
    match char_to_scancode key with
    | .error e => ⟨.error e, g, []⟩
    | .ok scancode =>
      match send_input api (some key) (create_keyboard_input scancode KEYEVENTF_SCANCODE) with
      | (.ok _, tr) => ⟨.ok (), { keys_down := g.keys_down ++ [key] }, tr⟩
      | (.error e, tr) => ⟨.error e, g, tr⟩

/-- Embedding of `GameInteraction._release_key`. -/
def release_key_impl (api : WinAPI) (g : GameInteraction) (key : String) : Outcome :=
  if key ∈ g.keys_down then
    match char_to_scancode key with
    | .error e => ⟨.error e, g, []⟩
    | .ok scancode =>
      match send_input api (some key)
          (create_keyboard_input scancode (KEYEVENTF_SCANCODE ||| KEYEVENTF_KEYUP)) with
      | (.ok _, tr) => ⟨.ok (), { keys_down := g.keys_down.erase key }, tr⟩
      | (.error e, tr) => ⟨.error e, g, tr⟩
  else
    ⟨.ok (), g, []⟩

/-- Embedding of `GameInteraction.hold_key` (public): `_hold_key` then the
after-key sleep; an exception skips the sleep. -/
def hold_key (api : WinAPI) (g : GameInteraction) (key : String) : Outcome :=
  match hold_key_impl api g key with
  | ⟨.ok _, g1, t1⟩ => ⟨.ok (), g1, t1 ++ random_sleep_after_key 200 300⟩
  | o => o

/-- Embedding of `GameInteraction.release_key` (public): `_release_key` then
the after-key sleep; an exception skips the sleep. -/
def release_key (api : WinAPI) (g : GameInteraction) (key : String) : Outcome :=
  match release_key_impl api g key with
  | ⟨.ok _, g1, t1⟩ => ⟨.ok (), g1, t1 ++ random_sleep_after_key 200 300⟩
  | o => o

/-- Embedding of `GameInteraction.press_key`: `_hold_key`, dwell sleep 50-100,
`_release_key`, settle sleep 200-300; an exception aborts the remainder. -/
def press_key (api : WinAPI) (g : GameInteraction) (key : String) : Outcome :=
  match hold_key_impl api g key with
  | ⟨.ok _, g1, t1⟩ =>
    match release_key_impl api g1 key with
    | ⟨.ok _, g2, t2⟩ =>
      ⟨.ok (), g2, t1 ++ random_sleep_after_key 50 100 ++ t2 ++ random_sleep_after_key 200 300⟩
    | ⟨.error e, g2, t2⟩ => ⟨.error e, g2, t1 ++ random_sleep_after_key 50 100 ++ t2⟩
  | o => o

/-- Loop body of `GameInteraction.reset_keys`: iterate `_release_key` over the
snapshot list; an exception aborts the loop and propagates. -/
def reset_keys_loop (api : WinAPI) (g : GameInteraction) : List String → Outcome
  | [] => ⟨.ok (), g, []⟩
  | k :: ks =>
    match release_key_impl api g k with
    | ⟨.ok _, g1, t1⟩ =>
      match reset_keys_loop api g1 ks with
      | ⟨r, g2, t2⟩ => ⟨r, g2, t1 ++ t2⟩
    | o => o

/-- Embedding of `GameInteraction.reset_keys`: release every key in a snapshot
(`list(self._keys_down)`) of the held-key set. -/
def reset_keys (api : WinAPI) (g : GameInteraction) : Outcome :=
  reset_keys_loop api g g.keys_down

/-- Embedding of `GameInteraction.left_click_down`. -/
def left_click_down (api : WinAPI) (g : GameInteraction) : Outcome :=
  match send_input api none (create_mouse_input MOUSEEVENTF_LEFTDOWN) with
  | (r, tr) => ⟨r, g, tr⟩

/-- Embedding of `GameInteraction.left_click_up`. -/
def left_click_up (api : WinAPI) (g : GameInteraction) : Outcome :=
  match send_input api none (create_mouse_input MOUSEEVENTF_LEFTUP) with
  | (r, tr) => ⟨r, g, tr⟩

/-- Embedding of `GameInteraction.right_click_down`. -/
def right_click_down (api : WinAPI) (g : GameInteraction) : Outcome :=
  match send_input api none (create_mouse_input MOUSEEVENTF_RIGHTDOWN) with
  | (r, tr) => ⟨r, g, tr⟩

/-- Embedding of `GameInteraction.right_click_up`. -/
def right_click_up (api : WinAPI) (g : GameInteraction) : Outcome :=
  match send_input api none (create_mouse_input MOUSEEVENTF_RIGHTUP) with
  | (r, tr) => ⟨r, g, tr⟩

/-- Embedding of `GameInteraction.left_click`: down then up, no sleeps. -/
def left_click (api : WinAPI) (g : GameInteraction) : Outcome :=
  match left_click_down api g with
  | ⟨.ok _, g1, t1⟩ =>
    match left_click_up api g1 with
    | ⟨r, g2, t2⟩ => ⟨r, g2, t1 ++ t2⟩
  | o => o

/-- Embedding of `GameInteraction.right_click`: down then up, no sleeps. -/
def right_click (api : WinAPI) (g : GameInteraction) : Outcome :=
  match right_click_down api g with
  | ⟨.ok _, g1, t1⟩ =>
    match right_click_up api g1 with
    | ⟨r, g2, t2⟩ => ⟨r, g2, t1 ++ t2⟩
  | o => o

/-- Embedding of `GameInteraction._set_to_foreground`. -/
def set_to_foreground (api : WinAPI) (game_title : String) : Except PyError Unit :=
  let hwnd := api.findWindowW game_title
  if hwnd = 0 then
    .error (window_not_found_error game_title)
  else if api.setForegroundWindow hwnd then
    .ok ()
  else
    .error foreground_error

/-- Embedding of `GameInteraction.__init__`: bring the window to the
foreground, then initialize `_keys_down` to the empty set. -/
def GameInteraction.init (api : WinAPI) (game_title : String) :
    Except PyError GameInteraction :=
  match set_to_foreground api game_title with
  | .ok _ => .ok { keys_down := [] }
  | .error e => .error e

/-! ## Operation sequences

Client programs call the public dispatcher methods in sequence; an uncaught
exception aborts the rest of the sequence (the object and its state survive,
as in Python). -/

/-- One public dispatcher operation. -/
inductive Op where
  | hold (key : String)
  | release (key : String)
  | press (key : String)
  | resetKeys
deriving Repr, DecidableEq

/-- Dispatch one operation to its embedding. -/
def runOp (api : WinAPI) (g : GameInteraction) : Op → Outcome
  | .hold k => hold_key api g k
  | .release k => release_key api g k
  | .press k => press_key api g k
  | .resetKeys => reset_keys api g

/-- Run a sequence of operations from a state; stop at the first exception. -/
def run (api : WinAPI) (g : GameInteraction) : List Op → Outcome
  | [] => ⟨.ok (), g, []⟩
  | op :: ops =>
    match runOp api g op with
    | ⟨.ok _, g1, t1⟩ =>
      match run api g1 ops with
      | ⟨r, g2, t2⟩ => ⟨r, g2, t1 ++ t2⟩
    | o => o

/-! ## Trace observations -/

/-- Whether an effect is a successfully delivered key-down event issued for
key `k` (a `SendInput` call made by `_hold_key k` whose payload has the
scancode flag only, and which the OS accepted). -/
def isKeyDownFor (k : String) : Eff → Bool
  | .send forKey i ok =>
      ok && decide (forKey = some k) &&
        (match i.ii with
         | .ki kb => decide (kb.dwFlags = KEYEVENTF_SCANCODE)
         | .mi _ => false)
  | .sleep _ _ => false

/-- Whether an effect is a successfully delivered key-up event issued for
key `k`. -/
def isKeyUpFor (k : String) : Eff → Bool
  | .send forKey i ok =>
      ok && decide (forKey = some k) &&
        (match i.ii with
         | .ki kb => decide (kb.dwFlags = (KEYEVENTF_SCANCODE ||| KEYEVENTF_KEYUP))
         | .mi _ => false)
  | .sleep _ _ => false

/-- Number of delivered key-down events for `k` in a trace. -/
def downCount (tr : List Eff) (k : String) : Nat :=
  tr.countP (isKeyDownFor k)

/-- Number of delivered key-up events for `k` in a trace. -/
def upCount (tr : List Eff) (k : String) : Nat :=
  tr.countP (isKeyUpFor k)

/-- The `SendInput` calls of a trace (sleeps dropped). -/
def sends (tr : List Eff) : List Eff :=
  tr.filter fun e => match e with
    | .send _ _ _ => true
    | .sleep _ _ => false

/-- Interface invariant of the held-key set: keys are pairwise distinct;
every held key has a delivered key-down event not yet matched by a key-up and
translates to a scancode; every other key has equally many delivered
key-down and key-up events. -/
def Inv (g : GameInteraction) (tr : List Eff) : Prop :=
  g.keys_down.Nodup ∧
  ∀ k : String,
    (k ∈ g.keys_down →
        downCount tr k = upCount tr k + 1 ∧ (char_to_scancode k).isOk = true) ∧
    (k ∉ g.keys_down → downCount tr k = upCount tr k)

/-! ## Counting lemmas -/

@[simp] theorem downCount_nil (k : String) : downCount [] k = 0 := rfl

@[simp] theorem upCount_nil (k : String) : upCount [] k = 0 := rfl

@[simp] theorem downCount_append (t1 t2 : List Eff) (k : String) :
    downCount (t1 ++ t2) k = downCount t1 k + downCount t2 k := by
  simp [downCount, List.countP_append]

@[simp] theorem upCount_append (t1 t2 : List Eff) (k : String) :
    upCount (t1 ++ t2) k = upCount t1 k + upCount t2 k := by
  simp [upCount, List.countP_append]

@[simp] theorem downCount_sleep (a b : Nat) (k : String) :
    downCount [.sleep a b] k = 0 := rfl

@[simp] theorem upCount_sleep (a b : Nat) (k : String) :
    upCount [.sleep a b] k = 0 := rfl

@[simp] theorem downCount_random_sleep (a b : Nat) (k : String) :
    downCount (random_sleep a b) k = 0 := rfl

@[simp] theorem upCount_random_sleep (a b : Nat) (k : String) :
    upCount (random_sleep a b) k = 0 := rfl

@[simp] theorem downCount_random_sleep_after_key (a b : Nat) (k : String) :
    downCount (random_sleep_after_key a b) k = 0 := rfl

@[simp] theorem upCount_random_sleep_after_key (a b : Nat) (k : String) :
    upCount (random_sleep_after_key a b) k = 0 := rfl

@[simp] theorem downCount_send_down (key k : String) (sc : Nat) (ok : Bool) :
    downCount [.send (some key) (create_keyboard_input sc KEYEVENTF_SCANCODE) ok] k =
      if ok = true ∧ key = k then 1 else 0 := by
  simp only [downCount, isKeyDownFor, create_keyboard_input, List.countP_cons, List.countP_nil]
  by_cases hk : key = k <;> cases ok <;> simp [hk]

@[simp] theorem upCount_send_down (key k : String) (sc : Nat) (ok : Bool) :
    upCount [.send (some key) (create_keyboard_input sc KEYEVENTF_SCANCODE) ok] k = 0 := by
  simp [upCount, isKeyUpFor, create_keyboard_input, List.countP_cons,
    KEYEVENTF_SCANCODE, KEYEVENTF_KEYUP]

@[simp] theorem downCount_send_up (key k : String) (sc : Nat) (ok : Bool) :
    downCount [.send (some key)
      (create_keyboard_input sc (KEYEVENTF_SCANCODE ||| KEYEVENTF_KEYUP)) ok] k = 0 := by
  simp [downCount, isKeyDownFor, create_keyboard_input, List.countP_cons,
    KEYEVENTF_SCANCODE, KEYEVENTF_KEYUP]

@[simp] theorem upCount_send_up (key k : String) (sc : Nat) (ok : Bool) :
    upCount [.send (some key)
      (create_keyboard_input sc (KEYEVENTF_SCANCODE ||| KEYEVENTF_KEYUP)) ok] k =
      if ok = true ∧ key = k then 1 else 0 := by
  simp only [upCount, isKeyUpFor, create_keyboard_input, List.countP_cons, List.countP_nil]
  by_cases hk : key = k <;> cases ok <;> simp [hk]

@[simp] theorem downCount_cons_send_down (key k : String) (sc : Nat) (ok : Bool) (l : List Eff) :
    downCount (.send (some key) (create_keyboard_input sc KEYEVENTF_SCANCODE) ok :: l) k =
      downCount l k + if ok = true ∧ key = k then 1 else 0 := by
  simp only [downCount, List.countP_cons]
  congr 1
  by_cases hk : key = k <;> cases ok <;>
    simp [isKeyDownFor, create_keyboard_input, hk]

@[simp] theorem upCount_cons_send_down (key k : String) (sc : Nat) (ok : Bool) (l : List Eff) :
    upCount (.send (some key) (create_keyboard_input sc KEYEVENTF_SCANCODE) ok :: l) k =
      upCount l k := by
  simp [upCount, List.countP_cons, isKeyUpFor, create_keyboard_input,
    KEYEVENTF_SCANCODE, KEYEVENTF_KEYUP]

@[simp] theorem downCount_cons_send_up (key k : String) (sc : Nat) (ok : Bool) (l : List Eff) :
    downCount (.send (some key)
        (create_keyboard_input sc (KEYEVENTF_SCANCODE ||| KEYEVENTF_KEYUP)) ok :: l) k =
      downCount l k := by
  simp [downCount, List.countP_cons, isKeyDownFor, create_keyboard_input,
    KEYEVENTF_SCANCODE, KEYEVENTF_KEYUP]

@[simp] theorem upCount_cons_send_up (key k : String) (sc : Nat) (ok : Bool) (l : List Eff) :
    upCount (.send (some key)
        (create_keyboard_input sc (KEYEVENTF_SCANCODE ||| KEYEVENTF_KEYUP)) ok :: l) k =
      upCount l k + if ok = true ∧ key = k then 1 else 0 := by
  simp only [upCount, List.countP_cons]
  congr 1
  by_cases hk : key = k <;> cases ok <;>
    simp [isKeyUpFor, create_keyboard_input, hk]

@[simp] theorem downCount_cons_sleep (a b : Nat) (k : String) (l : List Eff) :
    downCount (.sleep a b :: l) k = downCount l k := by
  simp [downCount, List.countP_cons, isKeyDownFor]

@[simp] theorem upCount_cons_sleep (a b : Nat) (k : String) (l : List Eff) :
    upCount (.sleep a b :: l) k = upCount l k := by
  simp [upCount, List.countP_cons, isKeyUpFor]

@[simp] theorem downCount_send_mouse (k : String) (flags : Nat) (ok : Bool) :
    downCount [.send none (create_mouse_input flags) ok] k = 0 := by
  simp [downCount, isKeyDownFor, create_mouse_input, List.countP_cons]

@[simp] theorem upCount_send_mouse (k : String) (flags : Nat) (ok : Bool) :
    upCount [.send none (create_mouse_input flags) ok] k = 0 := by
  simp [upCount, isKeyUpFor, create_mouse_input, List.countP_cons]

/-! ## Invariant preservation -/

/-- The private hold step preserves the held-key invariant, in both the
normal and the exceptional outcome. -/
theorem Inv.hold_key_impl_preserves {g : GameInteraction} {tr : List Eff}
    (api : WinAPI) (key : String) (h : Inv g tr) :
    Inv (hold_key_impl api g key).state (tr ++ (hold_key_impl api g key).trace) := by
  obtain ⟨hnd, hcnt⟩ := h
  by_cases hmem : key ∈ g.keys_down
  · simpa [hold_key_impl, hmem] using ⟨hnd, hcnt⟩
  · rcases hsc : char_to_scancode key with e | sc
    · simpa [hold_key_impl, hmem, hsc] using ⟨hnd, hcnt⟩
    · rcases hsi : api.sendInput (create_keyboard_input sc KEYEVENTF_SCANCODE) with _ | _
      · -- SendInput failed: state unchanged, the traced call is not a delivered event
        simp only [hold_key_impl, hmem, if_neg hmem, hsc, send_input, hsi]
        refine ⟨hnd, fun k => ?_⟩
        have := hcnt k
        simp only [downCount_append, upCount_append, downCount_send_down, upCount_send_down]
        simpa using this
      · -- SendInput delivered: key appended, one key-down recorded
        simp only [hold_key_impl, hmem, if_neg hmem, hsc, send_input, hsi]
        refine ⟨?_, fun k => ?_⟩
        · simpa [List.nodup_append, hmem] using hnd
        · by_cases hk : k = key
          · subst hk
            have h2 := (hcnt k).2 hmem
            simp [h2, hsc, Except.isOk, Except.toBool]
          · have := hcnt k
            have hmk : (k ∈ g.keys_down ++ [key]) ↔ k ∈ g.keys_down := by
              simp [hk]
            simp only [downCount_append, upCount_append, downCount_send_down, upCount_send_down]
            simpa [hmk, fun h => hk h, Ne.symm, hk] using this

/-- The private release step preserves the held-key invariant, in both the
normal and the exceptional outcome. -/
theorem Inv.release_key_impl_preserves {g : GameInteraction} {tr : List Eff}
    (api : WinAPI) (key : String) (h : Inv g tr) :
    Inv (release_key_impl api g key).state (tr ++ (release_key_impl api g key).trace) := by
  obtain ⟨hnd, hcnt⟩ := h
  by_cases hmem : key ∈ g.keys_down
  · rcases hsc : char_to_scancode key with e | sc
    · -- impossible for a held key: the invariant records a successful translation
      have := ((hcnt key).1 hmem).2
      simp [hsc, Except.isOk, Except.toBool] at this
    · rcases hsi : api.sendInput
          (create_keyboard_input sc (KEYEVENTF_SCANCODE ||| KEYEVENTF_KEYUP)) with _ | _
      · -- SendInput failed: state unchanged, no delivered event
        simp only [release_key_impl, hmem, if_pos hmem, hsc, send_input, hsi]
        refine ⟨hnd, fun k => ?_⟩
        have := hcnt k
        simp only [downCount_append, upCount_append, downCount_send_up, upCount_send_up]
        simpa using this
      · -- SendInput delivered: key erased, one key-up recorded
        simp only [release_key_impl, hmem, if_pos hmem, hsc, send_input, hsi]
        refine ⟨hnd.erase key, fun k => ?_⟩
        by_cases hk : k = key
        · subst hk
          have h1 := (hcnt k).1 hmem
          have hne : k ∉ g.keys_down.erase k := hnd.not_mem_erase
          simp [hne, h1.1]
        · have := hcnt k
          have hmk : k ∈ g.keys_down.erase key ↔ k ∈ g.keys_down := by
            rw [hnd.mem_erase_iff]
            simp [hk]
          simp only [downCount_append, upCount_append, downCount_send_up, upCount_send_up]
          simpa [hmk, fun h => hk h, Ne.symm, hk] using this
  · simpa [release_key_impl, hmem] using ⟨hnd, hcnt⟩

/-- The public hold operation preserves the held-key invariant. -/
theorem Inv.hold_key_preserves {g : GameInteraction} {tr : List Eff}
    (api : WinAPI) (key : String) (h : Inv g tr) :
    Inv (hold_key api g key).state (tr ++ (hold_key api g key).trace) := by
  have h1 := h.hold_key_impl_preserves api key
  rcases ho : hold_key_impl api g key with ⟨r, g1, t1⟩
  rw [ho] at h1
  rcases r with e | u
  · simpa [hold_key, ho] using h1
  · obtain ⟨hnd, hcnt⟩ := h1
    simp only [hold_key, ho]
    refine ⟨hnd, fun k => ?_⟩
    have := hcnt k
    simp only [downCount_append, upCount_append, downCount_random_sleep_after_key, upCount_random_sleep_after_key,
      Nat.add_zero] at this ⊢
    exact this

/-- The public release operation preserves the held-key invariant. -/
theorem Inv.release_key_preserves {g : GameInteraction} {tr : List Eff}
    (api : WinAPI) (key : String) (h : Inv g tr) :
    Inv (release_key api g key).state (tr ++ (release_key api g key).trace) := by
  have h1 := h.release_key_impl_preserves api key
  rcases ho : release_key_impl api g key with ⟨r, g1, t1⟩
  rw [ho] at h1
  rcases r with e | u
  · simpa [release_key, ho] using h1
  · obtain ⟨hnd, hcnt⟩ := h1
    simp only [release_key, ho]
    refine ⟨hnd, fun k => ?_⟩
    have := hcnt k
    simp only [downCount_append, upCount_append, downCount_random_sleep_after_key, upCount_random_sleep_after_key,
      Nat.add_zero] at this ⊢
    exact this

/-- The press operation preserves the held-key invariant. -/
theorem Inv.press_key_preserves {g : GameInteraction} {tr : List Eff}
    (api : WinAPI) (key : String) (h : Inv g tr) :
    Inv (press_key api g key).state (tr ++ (press_key api g key).trace) := by
  have h1 := h.hold_key_impl_preserves api key
  rcases ho : hold_key_impl api g key with ⟨r1, g1, t1⟩
  rw [ho] at h1
  rcases r1 with e | u
  · simpa [press_key, ho] using h1
  · have h2 := h1.release_key_impl_preserves api key
    rcases ho2 : release_key_impl api g1 key with ⟨r2, g2, t2⟩
    rw [ho2] at h2
    obtain ⟨hnd, hcnt⟩ := h2
    rcases r2 with e | u
    · simp only [press_key, ho, ho2]
      refine ⟨hnd, fun k => ?_⟩
      have := hcnt k
      simp only [downCount_append, upCount_append, downCount_random_sleep_after_key, upCount_random_sleep_after_key,
        Nat.add_zero, Nat.zero_add, List.append_assoc] at this ⊢
      exact this
    · simp only [press_key, ho, ho2]
      refine ⟨hnd, fun k => ?_⟩
      have := hcnt k
      simp only [downCount_append, upCount_append, downCount_random_sleep_after_key, upCount_random_sleep_after_key,
        Nat.add_zero, Nat.zero_add, List.append_assoc] at this ⊢
      exact this

/-- The reset loop preserves the held-key invariant, for every snapshot. -/
theorem Inv.reset_keys_loop_preserves (api : WinAPI) (ks : List String) :
    ∀ {g : GameInteraction} {tr : List Eff}, Inv g tr →
      Inv (reset_keys_loop api g ks).state (tr ++ (reset_keys_loop api g ks).trace) := by
  induction ks with
  | nil => intro g tr h; simpa [reset_keys_loop] using h
  | cons k ks ih =>
    intro g tr h
    have h1 := h.release_key_impl_preserves api k
    rcases ho : release_key_impl api g k with ⟨r1, g1, t1⟩
    rw [ho] at h1
    rcases r1 with e | u
    · simpa [reset_keys_loop, ho] using h1
    · have h2 := ih h1
      rcases ho2 : reset_keys_loop api g1 ks with ⟨r2, g2, t2⟩
      rw [ho2] at h2
      obtain ⟨hnd, hcnt⟩ := h2
      simp only [reset_keys_loop, ho, ho2]
      refine ⟨hnd, fun j => ?_⟩
      have := hcnt j
      simp only [downCount_append, upCount_append, Nat.add_zero, Nat.zero_add, List.append_assoc] at this ⊢
      exact this

/-- The reset operation preserves the held-key invariant. -/
theorem Inv.reset_keys_preserves {g : GameInteraction} {tr : List Eff}
    (api : WinAPI) (h : Inv g tr) :
    Inv (reset_keys api g).state (tr ++ (reset_keys api g).trace) :=
  Inv.reset_keys_loop_preserves api g.keys_down h

/-- Every public operation preserves the held-key invariant. -/
theorem Inv.runOp_preserves {g : GameInteraction} {tr : List Eff}
    (api : WinAPI) (op : Op) (h : Inv g tr) :
    Inv (runOp api g op).state (tr ++ (runOp api g op).trace) := by
  cases op with
  | hold k => exact h.hold_key_preserves api k
  | release k => exact h.release_key_preserves api k
  | press k => exact h.press_key_preserves api k
  | resetKeys => exact h.reset_keys_preserves api

/-- Every sequence of public operations preserves the held-key invariant. -/
theorem Inv.run_preserves (api : WinAPI) (ops : List Op) :
    ∀ {g : GameInteraction} {tr : List Eff}, Inv g tr →
      Inv (run api g ops).state (tr ++ (run api g ops).trace) := by
  induction ops with
  | nil => intro g tr h; simpa [run] using h
  | cons op ops ih =>
    intro g tr h
    have h1 := h.runOp_preserves api op
    rcases ho : runOp api g op with ⟨r1, g1, t1⟩
    rw [ho] at h1
    rcases r1 with e | u
    · simpa [run, ho] using h1
    · have h2 := ih h1
      rcases ho2 : run api g1 ops with ⟨r2, g2, t2⟩
      rw [ho2] at h2
      obtain ⟨hnd, hcnt⟩ := h2
      simp only [run, ho, ho2]
      refine ⟨hnd, fun j => ?_⟩
      have := hcnt j
      simp only [downCount_append, upCount_append, Nat.add_zero, Nat.zero_add, List.append_assoc] at this ⊢
      exact this

/-- The invariant holds at construction: empty set, empty trace. -/
theorem Inv.initial : Inv ⟨[]⟩ [] := by
  refine ⟨List.nodup_nil, fun k => ?_⟩
  simp

/-- Reset loop on a snapshot that is exactly the current held-key list, all
keys translatable, all sends accepted: it succeeds and empties the set. -/
theorem reset_keys_loop_empties (api : WinAPI) (hsend : ∀ i, api.sendInput i = true) :
    ∀ ks : List String, (∀ k ∈ ks, (char_to_scancode k).isOk = true) →
      (reset_keys_loop api ⟨ks⟩ ks).result = .ok () ∧
        (reset_keys_loop api ⟨ks⟩ ks).state = ⟨[]⟩ := by
  intro ks
  induction ks with
  | nil => intro _; exact ⟨rfl, rfl⟩
  | cons k t ih =>
    intro hsup
    rcases hsc : char_to_scancode k with e | sc
    · have := hsup k (List.mem_cons_self k t)
      simp [hsc, Except.isOk, Except.toBool] at this
    · have hmem : k ∈ (⟨k :: t⟩ : GameInteraction).keys_down := List.mem_cons_self k t
      have hrel : release_key_impl api ⟨k :: t⟩ k =
          ⟨.ok (), ⟨t⟩, [.send (some k)
            (create_keyboard_input sc (KEYEVENTF_SCANCODE ||| KEYEVENTF_KEYUP)) true]⟩ := by
        simp [release_key_impl, hmem, hsc, send_input, hsend, List.erase_cons_head]
      have ht := ih (fun j hj => hsup j (List.mem_cons_of_mem k hj))
      rcases ho2 : reset_keys_loop api ⟨t⟩ t with ⟨r2, g2, t2⟩
      rw [ho2] at ht
      simp only [reset_keys_loop, hrel, ho2]
      exact ⟨ht.1, ht.2⟩

/-- A reset on a state whose held keys all translate, against an OS accepting
every input, returns normally with an empty held-key set. -/
theorem reset_keys_empties (api : WinAPI) (hsend : ∀ i, api.sendInput i = true)
    (g : GameInteraction) (hsup : ∀ k ∈ g.keys_down, (char_to_scancode k).isOk = true) :
    (reset_keys api g).result = .ok () ∧ (reset_keys api g).state = ⟨[]⟩ := by
  have := reset_keys_loop_empties api hsend g.keys_down hsup
  simpa [reset_keys] using this

/-- Shared all-accepting OS oracle for concrete witnesses: the window lookup
finds handle 1, foreground activation succeeds, every input is delivered. -/
def api_ok : WinAPI := ⟨fun _ => 1, fun _ => true, fun _ => true⟩

/-! ## Claim theorems -/

/-- Claim C1: for every sequence of hold/release/press/resetKeys operations on
a constructed Dispatcher, a key is in the held-key set iff a key-down event
was issued for it that has not yet been matched by a key-up event; the set
starts empty at construction, and resetKeys leaves it empty. -/
theorem C1_held_key_set_membership (api : WinAPI) (game_title : String)
    (g0 : GameInteraction) (ops : List Op)
    (hinit : GameInteraction.init api game_title = .ok g0)
    (hsend : ∀ i, api.sendInput i = true) :
    g0.keys_down = [] ∧
    (∀ k : String,
        k ∈ (run api g0 ops).state.keys_down ↔
          downCount (run api g0 ops).trace k = upCount (run api g0 ops).trace k + 1) ∧
    (reset_keys api (run api g0 ops).state).state.keys_down = [] := by
  have hg0 : g0 = ⟨[]⟩ := by
    unfold GameInteraction.init at hinit
    rcases h : set_to_foreground api game_title with e | u <;> rw [h] at hinit
    · exact (Except.noConfusion hinit)
    · exact (Except.ok.inj hinit).symm
  subst hg0
  have hrun := @Inv.run_preserves api ops ⟨[]⟩ [] Inv.initial
  simp only [List.nil_append] at hrun
  obtain ⟨hnd, hcnt⟩ := hrun
  refine ⟨rfl, fun k => ?_, ?_⟩
  · constructor
    · intro hk
      exact ((hcnt k).1 hk).1
    · intro hk
      by_contra hmem
      have := (hcnt k).2 hmem
      omega
  · have hsup : ∀ k ∈ (run api ⟨[]⟩ ops).state.keys_down,
        (char_to_scancode k).isOk = true := fun k hk => ((hcnt k).1 hk).2
    exact congrArg GameInteraction.keys_down
      (reset_keys_empties api hsend (run api ⟨[]⟩ ops).state hsup).2

/-- Witness for C1 at a concrete OS oracle and operation sequence. -/
theorem C1_held_key_set_membership_witness :
    GameInteraction.init api_ok "Sea of Thieves" = .ok ⟨[]⟩ ∧
    (reset_keys api_ok
      (run api_ok ⟨[]⟩ [.hold "f", .press "w"]).state).state.keys_down = [] :=
  ⟨by decide,
   (C1_held_key_set_membership api_ok "Sea of Thieves" ⟨[]⟩ [.hold "f", .press "w"]
      (by decide) (fun _ => rfl)).2.2⟩

/-- Claim C2: for every supported key, press(k) on a dispatcher not holding k
dispatches exactly one key-down followed by exactly one key-up for k, in that
order, and is the hold step followed by the release step. -/
theorem C2_press_key_down_then_up (api : WinAPI) (key : String) (sc : Nat)
    (hsend : ∀ i, api.sendInput i = true)
    (hsc : char_to_scancode key = .ok sc) :
    press_key api ⟨[]⟩ key =
      ⟨.ok (), ⟨[]⟩,
       [.send (some key) (create_keyboard_input sc KEYEVENTF_SCANCODE) true]
         ++ random_sleep_after_key 50 100
         ++ [.send (some key)
              (create_keyboard_input sc (KEYEVENTF_SCANCODE ||| KEYEVENTF_KEYUP)) true]
         ++ random_sleep_after_key 200 300⟩ ∧
    downCount (press_key api ⟨[]⟩ key).trace key = 1 ∧
    upCount (press_key api ⟨[]⟩ key).trace key = 1 ∧
    (press_key api ⟨[]⟩ key).trace =
      (hold_key_impl api ⟨[]⟩ key).trace ++ random_sleep_after_key 50 100 ++
        (release_key_impl api (hold_key_impl api ⟨[]⟩ key).state key).trace ++
        random_sleep_after_key 200 300 := by
  have hh : hold_key_impl api ⟨[]⟩ key =
      ⟨.ok (), ⟨[key]⟩,
       [.send (some key) (create_keyboard_input sc KEYEVENTF_SCANCODE) true]⟩ := by
    simp [hold_key_impl, hsc, send_input, hsend]
  have hr : release_key_impl api ⟨[key]⟩ key =
      ⟨.ok (), ⟨[]⟩,
       [.send (some key)
          (create_keyboard_input sc (KEYEVENTF_SCANCODE ||| KEYEVENTF_KEYUP)) true]⟩ := by
    simp [release_key_impl, hsc, send_input, hsend, List.erase_cons_head]
  refine ⟨?_, ?_, ?_, ?_⟩
  · simp [press_key, hh, hr]
  · simp [press_key, hh, hr, downCount, isKeyDownFor, create_keyboard_input,
      random_sleep_after_key, random_sleep, List.countP_cons, KEYEVENTF_SCANCODE,
      KEYEVENTF_KEYUP]
  · simp [press_key, hh, hr, upCount, isKeyUpFor, create_keyboard_input,
      random_sleep_after_key, random_sleep, List.countP_cons, KEYEVENTF_SCANCODE,
      KEYEVENTF_KEYUP]
  · simp [press_key, hh, hr]

/-- Witness for C2 at the all-accepting oracle and key f (scancode 0x21). -/
theorem C2_press_key_down_then_up_witness :
    char_to_scancode "f" = .ok 0x21 ∧
    press_key api_ok ⟨[]⟩ "f" =
      ⟨.ok (), ⟨[]⟩,
       [.send (some "f") (create_keyboard_input 0x21 KEYEVENTF_SCANCODE) true]
         ++ random_sleep_after_key 50 100
         ++ [.send (some "f")
              (create_keyboard_input 0x21 (KEYEVENTF_SCANCODE ||| KEYEVENTF_KEYUP)) true]
         ++ random_sleep_after_key 200 300⟩ :=
  ⟨by decide,
   (C2_press_key_down_then_up api_ok "f" 0x21 (fun _ => rfl) (by decide)).1⟩

/-- Claim C3: hold(k) twice in succession dispatches exactly one key-down (the
second call changes neither trace of sends nor set, which equals singleton k);
release(k) on a dispatcher that does not hold k dispatches zero events, leaves
the set unchanged, and returns normally. -/
theorem C3_hold_and_release_idempotence (api : WinAPI) (key : String) (sc : Nat)
    (hsend : ∀ i, api.sendInput i = true)
    (hsc : char_to_scancode key = .ok sc) :
    (run api ⟨[]⟩ [.hold key, .hold key]).state.keys_down = [key] ∧
    sends (run api ⟨[]⟩ [.hold key, .hold key]).trace =
      [.send (some key) (create_keyboard_input sc KEYEVENTF_SCANCODE) true] ∧
    downCount (run api ⟨[]⟩ [.hold key, .hold key]).trace key = 1 ∧
    (∀ (k : String) (g : GameInteraction), k ∉ g.keys_down →
        release_key api g k = ⟨.ok (), g, random_sleep_after_key 200 300⟩ ∧
        sends (release_key api g k).trace = []) := by
  have h1 : hold_key api ⟨[]⟩ key =
      ⟨.ok (), ⟨[key]⟩,
       [.send (some key) (create_keyboard_input sc KEYEVENTF_SCANCODE) true]
         ++ random_sleep_after_key 200 300⟩ := by
    simp [hold_key, hold_key_impl, hsc, send_input, hsend]
  have h2 : hold_key api ⟨[key]⟩ key =
      ⟨.ok (), ⟨[key]⟩, random_sleep_after_key 200 300⟩ := by
    simp [hold_key, hold_key_impl]
  have hrel : ∀ (k : String) (g : GameInteraction), k ∉ g.keys_down →
      release_key api g k = ⟨.ok (), g, random_sleep_after_key 200 300⟩ := by
    intro k g hmem
    simp [release_key, release_key_impl, hmem]
  refine ⟨?_, ?_, ?_, fun k g hmem => ⟨hrel k g hmem, ?_⟩⟩
  · simp [run, runOp, h1, h2]
  · simp [run, runOp, h1, h2, sends, random_sleep_after_key, random_sleep]
  · simp [run, runOp, h1, h2, random_sleep_after_key]
  · simp [hrel k g hmem, sends, random_sleep_after_key, random_sleep]

/-- Witness for C3 at the all-accepting oracle and key f. -/
theorem C3_hold_and_release_idempotence_witness :
    char_to_scancode "f" = .ok 0x21 ∧
    (run api_ok ⟨[]⟩ [.hold "f", .hold "f"]).state.keys_down = ["f"] :=
  ⟨by decide,
   (C3_hold_and_release_idempotence api_ok "f" 0x21 (fun _ => rfl) (by decide)).1⟩

/-- Claim C4: hold(k1); hold(k2); resetKeys() for distinct supported keys ends
with an empty held-key set, having dispatched exactly one key-up per key (none
twice, none skipped); resetKeys on an empty set is a no-op. -/
theorem C4_reset_releases_all (api : WinAPI) (k1 k2 : String) (s1 s2 : Nat)
    (hsend : ∀ i, api.sendInput i = true)
    (hsc1 : char_to_scancode k1 = .ok s1)
    (hsc2 : char_to_scancode k2 = .ok s2)
    (hne : k1 ≠ k2) :
    (run api ⟨[]⟩ [.hold k1, .hold k2, .resetKeys]).state.keys_down = [] ∧
    (run api ⟨[]⟩ [.hold k1, .hold k2, .resetKeys]).result = .ok () ∧
    sends (run api ⟨[]⟩ [.hold k1, .hold k2, .resetKeys]).trace =
      [.send (some k1) (create_keyboard_input s1 KEYEVENTF_SCANCODE) true,
       .send (some k2) (create_keyboard_input s2 KEYEVENTF_SCANCODE) true,
       .send (some k1) (create_keyboard_input s1 (KEYEVENTF_SCANCODE ||| KEYEVENTF_KEYUP)) true,
       .send (some k2) (create_keyboard_input s2 (KEYEVENTF_SCANCODE ||| KEYEVENTF_KEYUP)) true] ∧
    upCount (run api ⟨[]⟩ [.hold k1, .hold k2, .resetKeys]).trace k1 = 1 ∧
    upCount (run api ⟨[]⟩ [.hold k1, .hold k2, .resetKeys]).trace k2 = 1 ∧
    reset_keys api ⟨[]⟩ = ⟨.ok (), ⟨[]⟩, []⟩ := by
  have hne' : k2 ≠ k1 := fun h => hne h.symm
  have h1 : hold_key api ⟨[]⟩ k1 =
      ⟨.ok (), ⟨[k1]⟩,
       [.send (some k1) (create_keyboard_input s1 KEYEVENTF_SCANCODE) true]
         ++ random_sleep_after_key 200 300⟩ := by
    simp [hold_key, hold_key_impl, hsc1, send_input, hsend]
  have h2 : hold_key api ⟨[k1]⟩ k2 =
      ⟨.ok (), ⟨[k1, k2]⟩,
       [.send (some k2) (create_keyboard_input s2 KEYEVENTF_SCANCODE) true]
         ++ random_sleep_after_key 200 300⟩ := by
    simp [hold_key, hold_key_impl, hsc2, send_input, hsend, hne']
  have h3 : reset_keys api ⟨[k1, k2]⟩ =
      ⟨.ok (), ⟨[]⟩,
       [.send (some k1) (create_keyboard_input s1 (KEYEVENTF_SCANCODE ||| KEYEVENTF_KEYUP)) true,
        .send (some k2)
          (create_keyboard_input s2 (KEYEVENTF_SCANCODE ||| KEYEVENTF_KEYUP)) true]⟩ := by
    simp [reset_keys, reset_keys_loop, release_key_impl, hsc1, hsc2, send_input, hsend,
      List.erase_cons_head, hne']
  refine ⟨?_, ?_, ?_, ?_, ?_, ?_⟩
  · simp [run, runOp, h1, h2, h3]
  · simp [run, runOp, h1, h2, h3]
  · simp [run, runOp, h1, h2, h3, sends, random_sleep_after_key, random_sleep]
  · simp [run, runOp, h1, h2, h3, random_sleep_after_key, hne, hne']
  · simp [run, runOp, h1, h2, h3, random_sleep_after_key, hne, hne']
  · rfl

/-- Witness for C4 at the all-accepting oracle, keys f and d. -/
theorem C4_reset_releases_all_witness :
    char_to_scancode "f" = .ok 0x21 ∧ char_to_scancode "d" = .ok 0x20 ∧ ("f" : String) ≠ "d" ∧
    (run api_ok ⟨[]⟩ [.hold "f", .hold "d", .resetKeys]).state.keys_down = [] :=
  ⟨by decide, by decide, by decide,
   (C4_reset_releases_all api_ok "f" "d" 0x21 0x20 (fun _ => rfl) (by decide) (by decide)
      (by decide)).1⟩

/-- Lookup in an association list succeeds exactly when the key is among the
keys of the list. -/
theorem lookup_isSome_eq_contains_keys (s : String) (l : List (String × Nat)) :
    (List.lookup s l).isSome = (l.map Prod.fst).contains s := by
  induction l with
  | nil => rfl
  | cons p t ih =>
    rcases p with ⟨a, b⟩
    show (match s == a with | true => some b | false => List.lookup s t).isSome =
      (match s == a with | true => true | false => List.elem s (t.map Prod.fst))
    cases h : s == a
    · exact ih
    · rfl

/-- Supported character set as the spec lists it, written as the singleton
key strings, in the spec's order: the letters a through z, the digits 0
through 9, space, newline, backspace, tab. -/
def spec_supported_keys : List String :=
  ["a", "b", "c", "d", "e", "f", "g", "h", "i", "j", "k", "l", "m",
   "n", "o", "p", "q", "r", "s", "t", "u", "v", "w", "x", "y", "z",
   "0", "1", "2", "3", "4", "5", "6", "7", "8", "9",
   " ", "\n", "\x08", "\t"]

/-- Translation succeeds exactly when the case-folded key is in the spec's
supported set. -/
theorem char_to_scancode_isOk (key : String) :
    (char_to_scancode key).isOk = spec_supported_keys.contains (py_lower key) := by
  have htbl : US_QWERTY_SCANCODES.map Prod.fst = spec_supported_keys := by decide
  rw [char_to_scancode, ← htbl, ← lookup_isSome_eq_contains_keys]
  rcases h : US_QWERTY_SCANCODES.lookup (py_lower key) with _ | sc <;>
    simp [h, Except.isOk, Except.toBool]

/-- Translation failure returns the `ValueError` carrying the folded key. -/
theorem char_to_scancode_unsupported (key : String)
    (h : spec_supported_keys.contains (py_lower key) = false) :
    char_to_scancode key = .error (unsupported_key_error (py_lower key)) := by
  have hlk : (US_QWERTY_SCANCODES.lookup (py_lower key)).isSome = false := by
    rw [lookup_isSome_eq_contains_keys]
    have htbl : US_QWERTY_SCANCODES.map Prod.fst = spec_supported_keys := by decide
    rw [htbl, h]
  rw [char_to_scancode]
  rcases hl : US_QWERTY_SCANCODES.lookup (py_lower key) with _ | sc
  · rfl
  · rw [hl] at hlk
    simp at hlk

/-- Claim C5 counterexample: the character `@` is outside the supported set
and is not held, yet `release_key` returns normally (no UnsupportedKey error
is raised), refuting the claim that release fails with UnsupportedKey for
unsupported characters. It does dispatch zero events. -/
theorem C5_release_unsupported_counterexample :
    spec_supported_keys.contains (py_lower "@") = false ∧
    release_key api_ok ⟨[]⟩ "@" = ⟨.ok (), ⟨[]⟩, random_sleep_after_key 200 300⟩ ∧
    sends (release_key api_ok ⟨[]⟩ "@").trace = [] := by
  decide

/-- Claim C5 (amended): key-to-scancode translation is a pure lookup that
case-folds its input to lowercase and succeeds exactly when the folded input
is one of the characters a-z, 0-9, space, newline, backspace, tab; for every
key outside that set which is not held, hold and press fail with the
UnsupportedKey error kind (a ValueError) and dispatch zero events with the
set unchanged, while release dispatches zero events and leaves the set
unchanged but returns normally, because its membership guard runs before
translation.  The exact failure payload - the ValueError carrying the folded
offending key - is asserted for ASCII keys, on which `py_lower` agrees with
Python lowercasing exactly; the ASCII hypothesis of that conjunct scopes the
statement to the domain where the model's message string is faithful and is
not needed by the proof. -/
theorem C5_unsupported_key_behaviour (api : WinAPI) (key : String) (g : GameInteraction)
    (hunsup : spec_supported_keys.contains (py_lower key) = false)
    (hg : key ∉ g.keys_down) :
    (∀ s : String, (char_to_scancode s).isOk = spec_supported_keys.contains (py_lower s)) ∧
    (∃ msg, hold_key api g key = ⟨.error (.valueError msg), g, []⟩) ∧
    (∃ msg, press_key api g key = ⟨.error (.valueError msg), g, []⟩) ∧
    release_key api g key = ⟨.ok (), g, random_sleep_after_key 200 300⟩ ∧
    sends (release_key api g key).trace = [] ∧
    (key.data.all (fun c => c.toNat < 128) = true →
        hold_key api g key = ⟨.error (unsupported_key_error (py_lower key)), g, []⟩ ∧
        press_key api g key = ⟨.error (unsupported_key_error (py_lower key)), g, []⟩) := by
  have hsc := char_to_scancode_unsupported key hunsup
  have hh : hold_key_impl api g key =
      ⟨.error (unsupported_key_error (py_lower key)), g, []⟩ := by
    simp [hold_key_impl, hg, hsc]
  have hhold : hold_key api g key =
      ⟨.error (unsupported_key_error (py_lower key)), g, []⟩ := by
    simp [hold_key, hh]
  have hpress : press_key api g key =
      ⟨.error (unsupported_key_error (py_lower key)), g, []⟩ := by
    simp [press_key, hh]
  refine ⟨char_to_scancode_isOk, ?_, ?_, ?_, ?_, fun _ => ⟨hhold, hpress⟩⟩
  · exact ⟨_, by rw [hhold]; rfl⟩
  · exact ⟨_, by rw [hpress]; rfl⟩
  · simp [release_key, release_key_impl, hg]
  · simp [release_key, release_key_impl, hg, sends, random_sleep_after_key, random_sleep]

/-- Witness for the amended C5 at the unsupported ASCII character `@`. -/
theorem C5_unsupported_key_behaviour_witness :
    spec_supported_keys.contains (py_lower "@") = false ∧
    ("@" : String) ∉ (⟨[]⟩ : GameInteraction).keys_down ∧
    ("@" : String).data.all (fun c => c.toNat < 128) = true ∧
    press_key api_ok ⟨[]⟩ "@" = ⟨.error (unsupported_key_error (py_lower "@")), ⟨[]⟩, []⟩ :=
  ⟨by decide, by simp, by decide,
   ((C5_unsupported_key_behaviour api_ok "@" ⟨[]⟩ (by decide) (by simp)).2.2.2.2.2
      (by decide)).2⟩

/-- The window-not-found message never coincides with the foreground-failure
message, whatever the title. -/
theorem window_not_found_ne_foreground (game_title : String) :
    window_not_found_error game_title ≠ foreground_error := by
  intro h
  have hm := PyError.gameWindowError.inj h
  have hd := congrArg (fun s => s.data.head?) hm
  simp only [String.data_append, List.head?_append] at hd
  have hA : ("Game window with title '".data).head? = some 'G' := by decide
  rw [hA] at hd
  simp at hd

/-- Claim C6: construction fails with the window-not-found error when lookup
fails, independently of the foreground behaviour (so before any foreground
attempt); fails with the foreground error when the window is found but the
OS refuses; succeeds with an empty held-key set otherwise; and the four
error kinds are pairwise distinguishable values. -/
theorem C6_construction_contract (api : WinAPI) (game_title key : String) :
    (api.findWindowW game_title = 0 →
        ∀ (fg : Nat → Bool) (si : Input → Bool),
          GameInteraction.init ⟨api.findWindowW, fg, si⟩ game_title =
            .error (window_not_found_error game_title)) ∧
    (api.findWindowW game_title ≠ 0 →
        api.setForegroundWindow (api.findWindowW game_title) = false →
          GameInteraction.init api game_title = .error foreground_error) ∧
    (∀ g, GameInteraction.init api game_title = .ok g → g.keys_down = []) ∧
    window_not_found_error game_title ≠ foreground_error ∧
    window_not_found_error game_title ≠ unsupported_key_error key ∧
    window_not_found_error game_title ≠ input_dispatch_error ∧
    foreground_error ≠ unsupported_key_error key ∧
    foreground_error ≠ input_dispatch_error ∧
    unsupported_key_error key ≠ input_dispatch_error := by
  refine ⟨?_, ?_, ?_, window_not_found_ne_foreground game_title, ?_, ?_, ?_, ?_, ?_⟩
  · intro h0 fg si
    simp [GameInteraction.init, set_to_foreground, h0]
  · intro hfind hfg
    simp [GameInteraction.init, set_to_foreground, hfind, hfg]
  · intro g hinit
    unfold GameInteraction.init at hinit
    rcases h : set_to_foreground api game_title with e | u <;> rw [h] at hinit
    · exact Except.noConfusion hinit
    · exact congrArg GameInteraction.keys_down (Except.ok.inj hinit).symm
  · simp [window_not_found_error, unsupported_key_error]
  · simp [window_not_found_error, input_dispatch_error]
  · simp [foreground_error, unsupported_key_error]
  · simp [foreground_error, input_dispatch_error]
  · simp [unsupported_key_error, input_dispatch_error]

/-- Witness for C6: both failure modes and the success mode at concrete
oracles. -/
theorem C6_construction_contract_witness :
    ((⟨fun _ => 0, fun _ => true, fun _ => true⟩ : WinAPI).findWindowW "t" = 0 ∧
      GameInteraction.init ⟨fun _ => 0, fun _ => true, fun _ => true⟩ "t" =
        .error (window_not_found_error "t")) ∧
    ((⟨fun _ => 7, fun _ => false, fun _ => true⟩ : WinAPI).findWindowW "t" ≠ 0 ∧
      GameInteraction.init ⟨fun _ => 7, fun _ => false, fun _ => true⟩ "t" =
        .error foreground_error) ∧
    (⟨[]⟩ : GameInteraction).keys_down = [] :=
  ⟨⟨rfl,
    (C6_construction_contract ⟨fun _ => 0, fun _ => true, fun _ => true⟩ "t" "f").1 rfl _ _⟩,
   ⟨by decide,
    (C6_construction_contract ⟨fun _ => 7, fun _ => false, fun _ => true⟩ "t" "f").2.1
      (by decide) rfl⟩,
   (C6_construction_contract api_ok "t" "f").2.2.1 ⟨[]⟩ (by decide)⟩

/-- Claim C7: each single click operation issues exactly one mouse input
event and leaves the dispatcher state (the held-key set) unchanged; a full
click issues exactly the down event then the up event, with no sleep effect
between or after them. -/
theorem C7_mouse_click_frames (api : WinAPI) (g : GameInteraction)
    (hsend : ∀ i, api.sendInput i = true) :
    left_click_down api g =
      ⟨.ok (), g, [.send none (create_mouse_input MOUSEEVENTF_LEFTDOWN) true]⟩ ∧
    left_click_up api g =
      ⟨.ok (), g, [.send none (create_mouse_input MOUSEEVENTF_LEFTUP) true]⟩ ∧
    right_click_down api g =
      ⟨.ok (), g, [.send none (create_mouse_input MOUSEEVENTF_RIGHTDOWN) true]⟩ ∧
    right_click_up api g =
      ⟨.ok (), g, [.send none (create_mouse_input MOUSEEVENTF_RIGHTUP) true]⟩ ∧
    left_click api g =
      ⟨.ok (), g, [.send none (create_mouse_input MOUSEEVENTF_LEFTDOWN) true,
                   .send none (create_mouse_input MOUSEEVENTF_LEFTUP) true]⟩ ∧
    right_click api g =
      ⟨.ok (), g, [.send none (create_mouse_input MOUSEEVENTF_RIGHTDOWN) true,
                   .send none (create_mouse_input MOUSEEVENTF_RIGHTUP) true]⟩ := by
  refine ⟨?_, ?_, ?_, ?_, ?_, ?_⟩ <;>
    simp [left_click, left_click_down, left_click_up,
      right_click, right_click_down, right_click_up, send_input, hsend]

/-- Witness for C7 at the all-accepting oracle with one key held. -/
theorem C7_mouse_click_frames_witness :
    left_click api_ok ⟨["f"]⟩ =
      ⟨.ok (), ⟨["f"]⟩, [.send none (create_mouse_input MOUSEEVENTF_LEFTDOWN) true,
                         .send none (create_mouse_input MOUSEEVENTF_LEFTUP) true]⟩ :=
  (C7_mouse_click_frames api_ok ⟨["f"]⟩ (fun _ => rfl)).2.2.2.2.1

/-- Case folding is applied before lookup, so two keys with the same folded
form translate identically. -/
theorem char_to_scancode_congr {a b : String} (h : py_lower a = py_lower b) :
    char_to_scancode a = char_to_scancode b := by
  unfold char_to_scancode
  rw [h]

/-- Claim C9: for two distinct keys with the same case-folded form, holding
the first then the second dispatches two key-down events carrying the same
scancode and leaves both identifiers in the held-key set: the duplicate-press
guard compares exact strings, not folded keys. -/
theorem C9_case_sensitive_held_keys (api : WinAPI) (k1 k2 : String) (sc : Nat)
    (hsend : ∀ i, api.sendInput i = true) (hne : k1 ≠ k2)
    (hcase : py_lower k1 = py_lower k2)
    (hsc : char_to_scancode k1 = .ok sc) :
    char_to_scancode k2 = .ok sc ∧
    (run api ⟨[]⟩ [.hold k1, .hold k2]).state.keys_down = [k1, k2] ∧
    sends (run api ⟨[]⟩ [.hold k1, .hold k2]).trace =
      [.send (some k1) (create_keyboard_input sc KEYEVENTF_SCANCODE) true,
       .send (some k2) (create_keyboard_input sc KEYEVENTF_SCANCODE) true] := by
  have hsc2 : char_to_scancode k2 = .ok sc := (char_to_scancode_congr hcase).symm.trans hsc
  have hne' : k2 ≠ k1 := fun h => hne h.symm
  have h1 : hold_key api ⟨[]⟩ k1 =
      ⟨.ok (), ⟨[k1]⟩,
       [.send (some k1) (create_keyboard_input sc KEYEVENTF_SCANCODE) true]
         ++ random_sleep_after_key 200 300⟩ := by
    simp [hold_key, hold_key_impl, hsc, send_input, hsend]
  have h2 : hold_key api ⟨[k1]⟩ k2 =
      ⟨.ok (), ⟨[k1, k2]⟩,
       [.send (some k2) (create_keyboard_input sc KEYEVENTF_SCANCODE) true]
         ++ random_sleep_after_key 200 300⟩ := by
    simp [hold_key, hold_key_impl, hsc2, send_input, hsend, hne']
  refine ⟨hsc2, ?_, ?_⟩
  · simp [run, runOp, h1, h2]
  · simp [run, runOp, h1, h2, sends, random_sleep_after_key, random_sleep]

/-- Witness for C9 at the pair F, f (both scancode 0x21). -/
theorem C9_case_sensitive_held_keys_witness :
    ("F" : String) ≠ "f" ∧ py_lower "F" = py_lower "f" ∧
    char_to_scancode "F" = .ok 0x21 ∧
    (run api_ok ⟨[]⟩ [.hold "F", .hold "f"]).state.keys_down = ["F", "f"] :=
  ⟨by decide, by decide, by decide,
   (C9_case_sensitive_held_keys api_ok "F" "f" 0x21 (fun _ => rfl) (by decide) (by decide)
      (by decide)).2.1⟩

/-- Claim C10: when the OS rejects the input event, hold and release raise
the InputDispatchFailed error and leave the held-key set unchanged: a failed
hold does not add the key, a failed release does not remove it. -/
theorem C10_failed_dispatch_state_unchanged (api : WinAPI) (g : GameInteraction)
    (key : String) (sc : Nat) (hsc : char_to_scancode key = .ok sc) :
    (key ∉ g.keys_down →
        api.sendInput (create_keyboard_input sc KEYEVENTF_SCANCODE) = false →
          hold_key api g key =
            ⟨.error input_dispatch_error, g,
             [.send (some key) (create_keyboard_input sc KEYEVENTF_SCANCODE) false]⟩) ∧
    (key ∈ g.keys_down →
        api.sendInput
            (create_keyboard_input sc (KEYEVENTF_SCANCODE ||| KEYEVENTF_KEYUP)) = false →
          release_key api g key =
            ⟨.error input_dispatch_error, g,
             [.send (some key)
                (create_keyboard_input sc (KEYEVENTF_SCANCODE ||| KEYEVENTF_KEYUP)) false]⟩) := by
  constructor
  · intro hmem hfail
    simp [hold_key, hold_key_impl, hmem, hsc, send_input, hfail]
  · intro hmem hfail
    simp [release_key, release_key_impl, hmem, hsc, send_input, hfail]

/-- Witness for C10 at an oracle that rejects every input. -/
theorem C10_failed_dispatch_state_unchanged_witness :
    (hold_key ⟨fun _ => 1, fun _ => true, fun _ => false⟩ ⟨[]⟩ "f" =
      ⟨.error input_dispatch_error, ⟨[]⟩,
       [.send (some "f") (create_keyboard_input 0x21 KEYEVENTF_SCANCODE) false]⟩) ∧
    (release_key ⟨fun _ => 1, fun _ => true, fun _ => false⟩ ⟨["f"]⟩ "f" =
      ⟨.error input_dispatch_error, ⟨["f"]⟩,
       [.send (some "f")
          (create_keyboard_input 0x21 (KEYEVENTF_SCANCODE ||| KEYEVENTF_KEYUP)) false]⟩) :=
  ⟨(C10_failed_dispatch_state_unchanged ⟨fun _ => 1, fun _ => true, fun _ => false⟩ ⟨[]⟩ "f"
      0x21 (by decide)).1 (by simp) rfl,
   (C10_failed_dispatch_state_unchanged ⟨fun _ => 1, fun _ => true, fun _ => false⟩ ⟨["f"]⟩ "f"
      0x21 (by decide)).2 (by simp) rfl⟩

/-! ## RL environment (game_fishing_env.py)

`GameFishingEnv` drives the fishing loop: `reset` captures a frame and
returns the processed observation; `step` presses a key via the external
`pyautogui` library, waits, captures, and returns the Gymnasium 5-tuple.
The external collaborators (mss capture, cv2 conversion and resize) are
oracle functions over concrete nested-list images; numpy's `expand_dims`
is embedded concretely.  Frames are rows of pixels; a raw frame's pixels
are channel lists, a grayscale image's pixels are numbers. -/

/-- Raw captured frame: rows of pixels, each pixel a list of channel values. -/
abbrev RawFrame := List (List (List Nat))

/-- Grayscale image: rows of pixel intensities. -/
abbrev GrayImg := List (List Nat)

/-- Observation: rows of pixels, each a single-element channel list. -/
abbrev Obs := List (List (List Nat))

/-- Embedding of the `self.monitor` capture-region dict. -/
structure Monitor where
  top : Nat
  left : Nat
  width : Nat
  height : Nat
deriving Repr, DecidableEq

/-- Oracles for the external image collaborators: `mss` screen grab,
`cv2.cvtColor(..., COLOR_BGR2GRAY)`, and `cv2.resize` (with requested width
and height). -/
structure EnvLibs where
  grab : Monitor → RawFrame
  cvtColorGray : RawFrame → GrayImg
  resize : GrayImg → Nat → Nat → GrayImg

/-- Environment state: the capture region and the previous raw frame. -/
structure GameFishingEnv where
  monitor : Monitor
  previous_frame : Option RawFrame
deriving Repr, DecidableEq

/-- Embedding of `GameFishingEnv.__init__`: the fixed monitor region and no
previous frame. -/
def GameFishingEnv.initial : GameFishingEnv :=
  ⟨⟨100, 100, 800, 600⟩, none⟩

/-- Observable effects of one `step` call.  The embedding of the source only
ever emits the pyautogui effects; the `dispatcherPress` constructor exists so
that the spec's claim that actions go through the Input Dispatcher
(`GameInteraction`) can be stated and refuted. -/
inductive EnvEff where
  | dispatcherPress (key : String)
  | pyautoguiPress (key : String)
  | pyautoguiSleep
deriving Repr, DecidableEq

/-- Whether an effect is a key press through the Input Dispatcher. -/
def is_dispatcher_press : EnvEff → Bool
  | .dispatcherPress _ => true
  | .pyautoguiPress _ => false
  | .pyautoguiSleep => false

/-- Embedding of `GameFishingEnv._get_screen_frame`. -/
def get_screen_frame (libs : EnvLibs) (env : GameFishingEnv) : RawFrame :=
  libs.grab env.monitor

/-- Embedding of `np.expand_dims(frame, axis=-1)`: wrap each pixel in a
one-element channel list. -/
def expand_dims_last (img : GrayImg) : Obs :=
  img.map (fun row => row.map (fun p => [p]))

/-- Embedding of `GameFishingEnv._process_frame`: grayscale, resize to
84 x 84, add the channel dimension. -/
def process_frame (libs : EnvLibs) (frame : RawFrame) : Obs :=
  expand_dims_last (libs.resize (libs.cvtColorGray frame) 84 84)

/-- Embedding of `cv2.absdiff` followed by `np.sum`: total absolute pixel
difference of two raw frames. -/
def absdiff_sum (a b : RawFrame) : Nat :=
  ((a.zip b).map (fun rows =>
    ((rows.1.zip rows.2).map (fun pixels =>
      ((pixels.1.zip pixels.2).map (fun vals =>
        max vals.1 vals.2 - min vals.1 vals.2)).sum)).sum)).sum

/-- Embedding of `GameFishingEnv._calculate_reward`. -/
def calculate_reward (previous current : RawFrame) (action : Nat) : Int :=
  let movement_change := absdiff_sum previous current
  if action = 0 then
    if movement_change < 500 then 10 else -5
  else if action = 1 ∨ action = 2 ∨ action = 3 then
    if movement_change > 1000 then 5 else -5
  else 0

/-- Embedding of `GameFishingEnv._check_if_done` (a placeholder returning
False). -/
def check_if_done (_frame : RawFrame) : Bool :=
  false

/-- The `keys` list of `GameFishingEnv._perform_action`. -/
def action_keys : List String :=
  ["f", "d", "a", "s"]

/-- Embedding of `GameFishingEnv.reset`: capture, remember the raw frame,
return the processed observation and the empty info dict. -/
def GameFishingEnv.reset (libs : EnvLibs) (env : GameFishingEnv) :
    (Obs × Unit) × GameFishingEnv :=
  let frame := get_screen_frame libs env
  ((process_frame libs frame, ()), { env with previous_frame := some frame })

/-- Embedding of `GameFishingEnv.step`: press the action's key via pyautogui,
sleep 0.5 s, capture, and return the Gymnasium 5-tuple (observation, reward,
done, truncated=False, info={}) together with the new state and the effect
list.  `none` collapses the two Python error paths (IndexError for an action
outside the keys list, TypeError when no previous frame exists for the reward
computation); the claims only concern the defined path. -/
def GameFishingEnv.step (libs : EnvLibs) (env : GameFishingEnv) (action : Nat) :
    Option ((Obs × Int × Bool × Bool × Unit) × GameFishingEnv × List EnvEff) :=
  match action_keys[action]?, env.previous_frame with
  | some key, some prev =>
    let current := get_screen_frame libs env
    let processed := process_frame libs current
    let reward := calculate_reward prev current action
    let done := check_if_done current
    some ((processed, reward, done, false, ()),
          { env with previous_frame := some current },
          [.pyautoguiPress key, .pyautoguiSleep])
  | _, _ => none

/-- Shape predicate for a grayscale image: h rows of w pixels. -/
def grayShape (img : GrayImg) (h w : Nat) : Prop :=
  img.length = h ∧ ∀ row ∈ img, row.length = w

/-- Shape predicate for an observation: h rows of w pixels of c channels. -/
def obsShape (o : Obs) (h w c : Nat) : Prop :=
  o.length = h ∧ ∀ row ∈ o, row.length = w ∧ ∀ p ∈ row, p.length = c

/-- Adding the channel dimension to an h x w grayscale image yields an
h x w x 1 observation. -/
theorem expand_dims_last_shape {img : GrayImg} {h w : Nat} (hs : grayShape img h w) :
    obsShape (expand_dims_last img) h w 1 := by
  obtain ⟨hl, hrow⟩ := hs
  refine ⟨by simpa [expand_dims_last] using hl, fun row hr => ?_⟩
  simp only [expand_dims_last, List.mem_map] at hr
  obtain ⟨r0, hr0, rfl⟩ := hr
  refine ⟨by simpa using hrow r0 hr0, fun p hp => ?_⟩
  simp only [List.mem_map] at hp
  obtain ⟨v, hv, rfl⟩ := hp
  rfl

/-- Concrete collaborator oracle for witnesses: one-pixel capture, resize
always returning an 84 x 84 zero image. -/
def libs84 : EnvLibs :=
  ⟨fun _ => [[[0]]], fun _ => [[0]], fun _ _ _ => List.replicate 84 (List.replicate 84 0)⟩

/-- Concrete environment state with a previous frame recorded. -/
def env84 : GameFishingEnv :=
  ⟨⟨100, 100, 800, 600⟩, some [[[0]]]⟩

/-- Claim C8 counterexample: at action 0 the step's only key-press effect is
a pyautogui press of f — no press goes through the Input Dispatcher
(`GameInteraction`), refuting the claim that the action is mapped to a
Dispatcher key-press call. -/
theorem C8_step_uses_pyautogui_counterexample :
    (GameFishingEnv.step libs84 env84 0).map (fun r => r.2.2) =
      some [EnvEff.pyautoguiPress "f", EnvEff.pyautoguiSleep] ∧
    [EnvEff.pyautoguiPress "f", EnvEff.pyautoguiSleep].any is_dispatcher_press = false := by
  exact ⟨rfl, by decide⟩

/-- Claim C8 (amended): reset returns an (observation, info) pair and step,
for every action in {0,1,2,3}, returns an (observation, reward, done,
truncated, info) 5-tuple; the action is mapped to a key-press of
`["f","d","a","s"][action]` issued through the external pyautogui library
(not the Input Dispatcher); under the collaborator contract that resize
returns the requested 84 x 84 size, both observations are 84 x 84
single-channel images derived from the captured frame. -/
theorem C8_env_contract (libs : EnvLibs) (env : GameFishingEnv) (action : Nat)
    (prev : RawFrame)
    (hprev : env.previous_frame = some prev)
    (haction : action < 4)
    (hresize : ∀ img, grayShape (libs.resize img 84 84) 84 84) :
    (∃ key, action_keys[action]? = some key ∧
        GameFishingEnv.step libs env action =
          some ((process_frame libs (get_screen_frame libs env),
                 calculate_reward prev (get_screen_frame libs env) action,
                 false, false, ()),
                { env with previous_frame := some (get_screen_frame libs env) },
                [.pyautoguiPress key, .pyautoguiSleep])) ∧
    (GameFishingEnv.step libs env action).map (fun r => r.2.2.any is_dispatcher_press) =
      some false ∧
    obsShape (process_frame libs (get_screen_frame libs env)) 84 84 1 ∧
    obsShape ((GameFishingEnv.reset libs env).1.1) 84 84 1 := by
  have hkey : ∃ key, action_keys[action]? = some key := by
    interval_cases action
    · exact ⟨"f", rfl⟩
    · exact ⟨"d", rfl⟩
    · exact ⟨"a", rfl⟩
    · exact ⟨"s", rfl⟩
  obtain ⟨key, hkey⟩ := hkey
  have hstep : GameFishingEnv.step libs env action =
      some ((process_frame libs (get_screen_frame libs env),
             calculate_reward prev (get_screen_frame libs env) action,
             false, false, ()),
            { env with previous_frame := some (get_screen_frame libs env) },
            [.pyautoguiPress key, .pyautoguiSleep]) := by
    simp [GameFishingEnv.step, hkey, hprev, check_if_done]
  refine ⟨⟨key, hkey, hstep⟩, ?_, ?_, ?_⟩
  · rw [hstep]
    simp [is_dispatcher_press]
  · exact expand_dims_last_shape (hresize _)
  · exact expand_dims_last_shape (hresize _)

/-- Witness for the amended C8 at the concrete collaborators. -/
theorem C8_env_contract_witness :
    env84.previous_frame = some [[[0]]] ∧ (0 : Nat) < 4 ∧
    obsShape ((GameFishingEnv.reset libs84 env84).1.1) 84 84 1 :=
  ⟨rfl, by decide,
   (C8_env_contract libs84 env84 0 [[[0]]] rfl (by decide)
      (fun img => by simp [libs84, grayShape, List.mem_replicate])).2.2.2⟩

end SotAutofish
